import Mathlib

/-!
Shallow embedding of `src/intg-template/device.py` (the `Device` class of the
uc-intg-template repository).  Each Python method becomes a pure Lean function
on an explicit `Device` record; logging becomes an explicit list of emitted
log messages; the `try/except` block of `verify_connection` becomes an
`Except` value.  External types that the repository imports but does not
define (`ucapi.media_player.States`, `const.DeviceConfig`,
`ucapi_framework.helpers.MediaPlayerAttributes`, the event loop and config
manager handles) are modelled from the specification, as documented on each
definition.
-/

namespace IntgTemplate

/-- Modelled from the spec: the external enum `ucapi.media_player.States`
(the spec describes `_power_state` as "one of an enumerated set of player
states, or unset").  The enumeration lists the media-player states of the
external `ucapi` library; the code under `src/` only ever mentions `ON` and
`OFF`. -/
inductive States where
  | UNAVAILABLE
  | UNKNOWN
  | ON
  | OFF
  | PLAYING
  | PAUSED
  | STANDBY
  | BUFFERING
deriving DecidableEq, Repr, BEq

/-- Modelled from the spec: `DeviceConfig` is defined in `const.py`, which is
not under `src/`; the spec says it "holds `identifier`, `name`, `address`"
and is read-only from this module.  `address` is optional because the
`Device.address` property is annotated `str | None`. -/
structure DeviceConfig where
  identifier : String
  name : String
  address : Option String
deriving DecidableEq, Repr

/-- Modelled from the spec: the external dataclass
`ucapi_framework.helpers.MediaPlayerAttributes`, "a loosely-typed bag of
display attributes, only `STATE` populated".  Besides `STATE`, the fields
named in the commented construction site of `device.py` are included so that
frame conditions ("no other effect") are expressible; all default to unset. -/
structure MediaPlayerAttributes where
  STATE : Option States
  VOLUME : Option Nat
  MUTED : Option Bool
  SOURCE : Option String
  SOURCE_LIST : Option (List String)
deriving DecidableEq, Repr

/-- Modelled from the spec: an opaque handle for the external
`asyncio.AbstractEventLoop`; no operation of the module inspects it. -/
structure AbstractEventLoop where
deriving DecidableEq, Repr

/-- Modelled from the spec: an opaque handle for the external
`ucapi_framework.BaseConfigManager`; no operation of the module inspects it. -/
structure BaseConfigManager where
deriving DecidableEq, Repr

/-- A Python exception value, carrying only its message. -/
structure PyException where
  msg : String
deriving DecidableEq, Repr

/-- The debug/error log messages `device.py` can emit, one constructor per
`_LOG` call site, carrying the interpolated arguments. -/
inductive LogMsg where
  | verifyingConnection (logId : String) (address : Option String)
  | connectionVerified (logId : String) (st : Option States)
  | poweringOn (logId : String)
  | poweringOff (logId : String)
  | togglingPower (logId : String)
  | sendingCommand (logId : String) (command : String)
  | connectionFailed (logId : String) (err : PyException)
deriving DecidableEq, Repr

/-- The state of a `Device` object: the configuration, loop and config
manager stored by the base `StatelessHTTPDevice` constructor (modelled from
the spec, section 6: construction signature `(device_config, loop,
config_manager)`), plus the two fields `device.py` itself initialises and
mutates, `_power_state` and `attributes`. -/
structure Device where
  _device_config : DeviceConfig
  _loop : Option AbstractEventLoop
  _config_manager : Option BaseConfigManager
  _power_state : Option States
  attributes : MediaPlayerAttributes
deriving DecidableEq, Repr

/-- `Device.__init__`: delegate to the base constructor (store the three
arguments), then set `_power_state = None` and construct
`MediaPlayerAttributes(STATE=None)` (every other attribute field left at its
dataclass default, unset). -/
def Device.init (device_config : DeviceConfig) (loop : Option AbstractEventLoop)
    (config_manager : Option BaseConfigManager) : Device :=
  { _device_config := device_config
    _loop := loop
    _config_manager := config_manager
    _power_state := none
    attributes :=
      { STATE := none
        VOLUME := none
        MUTED := none
        SOURCE := none
        SOURCE_LIST := none } }

/-- Property `identifier`: `return self._device_config.identifier`. -/
def Device.identifier (d : Device) : String :=
  d._device_config.identifier

/-- Property `name`: `return self._device_config.name`. -/
def Device.name (d : Device) : String :=
  d._device_config.name

/-- Property `address`: `return self._device_config.address`. -/
def Device.address (d : Device) : Option String :=
  d._device_config.address

/-- Property `state`: `return self._power_state`. -/
def Device.state (d : Device) : Option States :=
  d._power_state

/-- Property `log_id`: `return self.name if self.name else self.identifier`;
in Python a string is truthy exactly when it is non-empty. -/
def Device.log_id (d : Device) : String :=
  if d.name = "" then d.identifier else d.name

/-- `power_on`: log, then set `_power_state` and `attributes.STATE` to `ON`.
The result is the updated device state paired with the emitted log. -/
def Device.power_on (d : Device) : Device × List LogMsg :=
  ({ d with
      _power_state := some States.ON
      attributes := { d.attributes with STATE := some States.ON } },
   [LogMsg.poweringOn d.log_id])

/-- `power_off`: log, then set `_power_state` and `attributes.STATE` to
`OFF`. -/
def Device.power_off (d : Device) : Device × List LogMsg :=
  ({ d with
      _power_state := some States.OFF
      attributes := { d.attributes with STATE := some States.OFF } },
   [LogMsg.poweringOff d.log_id])

/-- `power_toggle`: log, then `if self._power_state == media_player.States.ON:
await self.power_off() else: await self.power_on()`.  Comparing the optional
`_power_state` with the enum member `ON` is `True` exactly when the field
holds `ON` (in Python, `None == ON` and `other == ON` are both `False`). -/
def Device.power_toggle (d : Device) : Device × List LogMsg :=
  let pre := [LogMsg.togglingPower d.log_id]
  if d._power_state = some States.ON then
    (d.power_off.1, pre ++ d.power_off.2)
  else
    (d.power_on.1, pre ++ d.power_on.2)

/-- The `try` block body of `verify_connection`: every implementation step is
a TODO comment, so the block only emits one debug log; no statement in it can
raise. -/
def Device.verify_connection_body (d : Device) :
    Except PyException (Device × List LogMsg) :=
  Except.ok (d, [LogMsg.connectionVerified d.log_id d._power_state])

/-- `verify_connection`: an initial debug log, then the `try` block; the
`except Exception` clause logs the failure and re-raises it unchanged. -/
def Device.verify_connection (d : Device) :
    Except PyException (Device × List LogMsg) :=
  let pre := [LogMsg.verifyingConnection d.log_id d.address]
  match d.verify_connection_body with
  | Except.ok (d2, logs) => Except.ok (d2, pre ++ logs)
  | Except.error err => Except.error err

/-- `send_command(command, **kwargs)`: the body is two (duplicated) debug
logs followed by the fully commented-out example `match`; no command is
routed and the device state is returned untouched. -/
def Device.send_command (d : Device) (command : String)
    (kwargs : List (String × String)) : Device × List LogMsg :=
  (d, [LogMsg.sendingCommand d.log_id command,
       LogMsg.sendingCommand d.log_id command])

/-- `get_device_attributes(entity_id)`: `return self.attributes`, ignoring
the entity id. -/
def Device.get_device_attributes (d : Device) (entity_id : String) :
    MediaPlayerAttributes :=
  d.attributes

/-- The consistency property the spec tracks: `_power_state` and
`attributes.STATE` hold the same value. -/
def Device.Inv (d : Device) : Prop :=
  d._power_state = d.attributes.STATE

instance (d : Device) : Decidable d.Inv := by
  unfold Device.Inv
  infer_instance

/-- C1: calling `power_toggle()` when the current power state equals `ON`
results in the power state `OFF`, and calling it in any other state (`OFF`,
any other enumerated state, or unset) results in the power state `ON`. -/
theorem power_toggle_toggles (d : Device) :
    d.power_toggle.1._power_state =
      (if d._power_state = some States.ON then some States.OFF
       else some States.ON) := by
  by_cases h : d._power_state = some States.ON <;>
    simp [Device.power_toggle, Device.power_on, Device.power_off, h]

/-- C2: after `power_on()` both `_power_state` and `attributes.STATE` equal
`ON`, for every prior device state, and symmetrically `power_off()` sets both
to `OFF`; no other effect on the device occurs (configuration, loop, config
manager and every other attribute field are unchanged). -/
theorem power_on_off_set_both_fields (d : Device) :
    d.power_on.1._power_state = some States.ON ∧
    d.power_on.1.attributes.STATE = some States.ON ∧
    d.power_off.1._power_state = some States.OFF ∧
    d.power_off.1.attributes.STATE = some States.OFF ∧
    d.power_on.1._device_config = d._device_config ∧
    d.power_on.1._loop = d._loop ∧
    d.power_on.1._config_manager = d._config_manager ∧
    d.power_on.1.attributes.VOLUME = d.attributes.VOLUME ∧
    d.power_on.1.attributes.MUTED = d.attributes.MUTED ∧
    d.power_on.1.attributes.SOURCE = d.attributes.SOURCE ∧
    d.power_on.1.attributes.SOURCE_LIST = d.attributes.SOURCE_LIST ∧
    d.power_off.1._device_config = d._device_config ∧
    d.power_off.1._loop = d._loop ∧
    d.power_off.1._config_manager = d._config_manager ∧
    d.power_off.1.attributes.VOLUME = d.attributes.VOLUME ∧
    d.power_off.1.attributes.MUTED = d.attributes.MUTED ∧
    d.power_off.1.attributes.SOURCE = d.attributes.SOURCE ∧
    d.power_off.1.attributes.SOURCE_LIST = d.attributes.SOURCE_LIST := by
  refine ⟨rfl, rfl, rfl, rfl, rfl, rfl, rfl, rfl, rfl, rfl, rfl, rfl, rfl,
    rfl, rfl, rfl, rfl, rfl⟩

/-- C3: the equality `_power_state = attributes.STATE` holds after
construction (both unset) and is preserved by every state-changing operation
of the class: `power_on`, `power_off`, `power_toggle`, `send_command`, and
`verify_connection` (whose returned device satisfies it again);
`get_device_attributes` does not mutate the device in the pure model, so the
invariant holds of every reachable state. -/
theorem inv_holds_on_reachable :
    (∀ cfg loop cm, Device.Inv (Device.init cfg loop cm)) ∧
    (∀ d : Device, Device.Inv d →
      Device.Inv d.power_on.1 ∧
      Device.Inv d.power_off.1 ∧
      Device.Inv d.power_toggle.1 ∧
      (∀ command kwargs, Device.Inv (d.send_command command kwargs).1) ∧
      (∀ d2 logs, d.verify_connection = Except.ok (d2, logs) →
        Device.Inv d2)) := by
  constructor
  · intro cfg loop cm
    rfl
  · intro d h
    refine ⟨rfl, rfl, ?_, ?_, ?_⟩
    · by_cases hc : d._power_state = some States.ON <;>
        simp [Device.power_toggle, Device.power_on, Device.power_off, hc,
          Device.Inv]
    · intro command kwargs
      exact h
    · intro d2 logs hok
      simp [Device.verify_connection, Device.verify_connection_body] at hok
      rw [← hok.1]
      exact h

/-- Witness for C3 at a concrete configuration: the invariant holds after
constructing a device and toggling it once. -/
theorem inv_holds_on_reachable_witness :
    Device.Inv ((Device.init ⟨"dev1", "Demo", some "10.0.0.2"⟩
      none none).power_toggle.1) :=
  (inv_holds_on_reachable.2
    (Device.init ⟨"dev1", "Demo", some "10.0.0.2"⟩ none none)
    (inv_holds_on_reachable.1 ⟨"dev1", "Demo", some "10.0.0.2"⟩
      none none)).2.2.1

/-- C4: `verify_connection()` performs no connection, query or state update:
for every device state it returns normally (`Except.ok`), hands back the
device unchanged together with its two debug logs, and therefore never takes
the catch-log-reraise branch. -/
theorem verify_connection_is_noop (d : Device) :
    d.verify_connection =
      Except.ok (d, [LogMsg.verifyingConnection d.log_id d.address,
                     LogMsg.connectionVerified d.log_id d._power_state]) := by
  rfl

/-- C5: `send_command(command, **kwargs)` routes no command: for every
command string and keyword arguments it leaves the entire device state
(`_power_state`, `attributes` and the stored configuration, i.e. the whole
record) unchanged, and its only output is the two duplicated debug logs. -/
theorem send_command_routes_nothing (d : Device) (command : String)
    (kwargs : List (String × String)) :
    (d.send_command command kwargs).1 = d ∧
    (d.send_command command kwargs).2 =
      [LogMsg.sendingCommand d.log_id command,
       LogMsg.sendingCommand d.log_id command] :=
  ⟨rfl, rfl⟩

/-- C6: for every entity id string, `get_device_attributes(entity_id)`
returns the single internal attributes object of the device; in particular
any two calls with different entity ids on the same device state agree. -/
theorem get_device_attributes_ignores_entity_id (d : Device)
    (e1 e2 : String) :
    d.get_device_attributes e1 = d.attributes ∧
    d.get_device_attributes e1 = d.get_device_attributes e2 :=
  ⟨rfl, rfl⟩

/-- C7: the properties `identifier`, `name` and `address` of a constructed
device return exactly the corresponding fields of the `DeviceConfig` passed
at construction, unmodified, for every configuration value. -/
theorem properties_return_config_fields (cfg : DeviceConfig)
    (loop : Option AbstractEventLoop) (cm : Option BaseConfigManager) :
    (Device.init cfg loop cm).identifier = cfg.identifier ∧
    (Device.init cfg loop cm).name = cfg.name ∧
    (Device.init cfg loop cm).address = cfg.address :=
  ⟨rfl, rfl, rfl⟩

/-- C8: the constructor initialises `_power_state` to unset and the
`attributes` record with an unset `STATE` field, for every configuration;
consequently the `state` property of a freshly constructed device is unset. -/
theorem init_state_is_unset (cfg : DeviceConfig)
    (loop : Option AbstractEventLoop) (cm : Option BaseConfigManager) :
    (Device.init cfg loop cm)._power_state = none ∧
    (Device.init cfg loop cm).attributes.STATE = none ∧
    (Device.init cfg loop cm).state = none :=
  ⟨rfl, rfl, rfl⟩

/-- C9: `log_id` returns the device name when the name is non-empty, and
falls back to the device identifier when the name is the empty string; in
particular a configuration with an empty-string name gives the identifier. -/
theorem log_id_falls_back_to_identifier (cfg : DeviceConfig)
    (loop : Option AbstractEventLoop) (cm : Option BaseConfigManager) :
    (cfg.name ≠ "" → (Device.init cfg loop cm).log_id = cfg.name) ∧
    (cfg.name = "" → (Device.init cfg loop cm).log_id = cfg.identifier) := by
  constructor
  · intro h
    simp [Device.log_id, Device.name, Device.identifier, Device.init, h]
  · intro h
    simp [Device.log_id, Device.name, Device.identifier, Device.init, h]

/-- Witness for C9: with a non-empty name `log_id` is the name; with an
empty name it is the identifier. -/
theorem log_id_falls_back_to_identifier_witness :
    (Device.init ⟨"id1", "TV", none⟩ none none).log_id = "TV" ∧
    (Device.init ⟨"id2", "", none⟩ none none).log_id = "id2" :=
  ⟨(log_id_falls_back_to_identifier ⟨"id1", "TV", none⟩ none none).1
      (by decide),
   (log_id_falls_back_to_identifier ⟨"id2", "", none⟩ none none).2 rfl⟩

/-- C10 as stated is false: a device whose `_power_state` is `ON` but whose
`attributes.STATE` is unset has `_power_state` restored by two toggles, yet
its `attributes.STATE` ends at `ON`, not at its original unset value. -/
theorem power_toggle_involution_counterexample :
    (let d : Device :=
      { _device_config := ⟨"id", "n", none⟩
        _loop := none
        _config_manager := none
        _power_state := some States.ON
        attributes :=
          { STATE := none, VOLUME := none, MUTED := none,
            SOURCE := none, SOURCE_LIST := none } }
     d._power_state = some States.ON ∧
     d.attributes.STATE = none ∧
     d.power_toggle.1.power_toggle.1._power_state = some States.ON ∧
     d.power_toggle.1.power_toggle.1.attributes.STATE = some States.ON ∧
     (d.power_toggle.1.power_toggle.1.attributes.STATE ==
        d.attributes.STATE) = false) := by
  decide

/-- C10, amended: for every device whose `_power_state` is `ON` or `OFF`,
two calls of `power_toggle()` restore `_power_state` to its original value,
and also restore `attributes.STATE` provided it equalled `_power_state`
beforehand (the class invariant); from the unset state, two toggles take
`_power_state` to `OFF`. -/
theorem power_toggle_involution :
    (∀ d : Device,
      (d._power_state = some States.ON ∨ d._power_state = some States.OFF) →
      d.power_toggle.1.power_toggle.1._power_state = d._power_state ∧
      (d.attributes.STATE = d._power_state →
        d.power_toggle.1.power_toggle.1.attributes.STATE =
          d.attributes.STATE)) ∧
    (∀ d : Device, d._power_state = none →
      d.power_toggle.1.power_toggle.1._power_state = some States.OFF) := by
  constructor
  · intro d h1
    have hstate :
        d.power_toggle.1.power_toggle.1._power_state = d._power_state := by
      rcases h1 with h | h <;>
        simp [Device.power_toggle, Device.power_on, Device.power_off, h]
    refine ⟨hstate, ?_⟩
    intro h2
    rcases h1 with h | h <;>
      simp [Device.power_toggle, Device.power_on, Device.power_off, h, h2]
  · intro d h
    simp [Device.power_toggle, Device.power_on, Device.power_off, h]

/-- Witness for the amended C10: a consistent device in state `ON` returns
to `ON` with matching attributes after two toggles, and a freshly unset
device reaches `OFF`. -/
theorem power_toggle_involution_witness :
    (let d : Device :=
      { _device_config := ⟨"idw", "W", none⟩
        _loop := none
        _config_manager := none
        _power_state := some States.ON
        attributes :=
          { STATE := some States.ON, VOLUME := none, MUTED := none,
            SOURCE := none, SOURCE_LIST := none } }
     d.power_toggle.1.power_toggle.1._power_state = some States.ON ∧
     d.power_toggle.1.power_toggle.1.attributes.STATE = some States.ON) ∧
    (Device.init ⟨"idw2", "W2", none⟩ none
        none).power_toggle.1.power_toggle.1._power_state =
      some States.OFF := by
  constructor
  · exact ⟨(power_toggle_involution.1 _ (Or.inl rfl)).1,
      (power_toggle_involution.1 _ (Or.inl rfl)).2 rfl⟩
  · exact power_toggle_involution.2 _ rfl

end IntgTemplate
